import Mathlib

/-!
Shallow embedding of the `image-compressor` repository
(`src/compression.js`, `src/server.js`, `src/cleanup.js`).

Conventions of the embedding:

* Buffers are represented by their byte length (`Nat`); the only property
  of an encoded buffer the code ever inspects is `.length` / `stats.size`.
* The `sharp` codec engine is opaque in the source (spec §1), so an image
  buffer is modelled by an abstract encode-size function
  `enc : Option Nat → Nat → Nat` giving the byte length produced by
  `getBuffer(buf, w, q)` (optional resize width `w`, quality `q`), together
  with the metadata width of the buffer.  The function is total and
  deterministic, matching the pure use the search makes of the codec.
* JavaScript numbers reaching `compressBufferRecursive` through
  `parseFloat` are modelled by `JNum` (`NaN` or a rational value);
  JS truthiness of such a number (`!targetSizeKB`) is `JNum` falsiness.
* `Math.floor(width * 0.70)` is modelled as `7 * width / 10` (Nat floor
  division).  The double rounding of the literal `0.70` can shift a width
  by one in rare cases; no claim below depends on the exact width
  sequence, only on the loop structure and on which probes fit.
-/

/-- A JavaScript number as produced by `parseFloat`: `NaN` or a finite
value (modelled as a rational; doubles are opaque byte budgets here). -/
inductive JNum where
  | nan : JNum
  | val : ℚ → JNum
deriving DecidableEq

/-- JS falsiness of a number: `NaN` and `0` are falsy. -/
def JNum.falsy : JNum → Bool
  | .nan => true
  | .val q => decide (q = 0)

/-- JS falsiness of `targetSizeKB` as tested by `if (!targetSizeKB)` in
`compressBufferRecursive`: `null`, `NaN` and `0` are falsy. -/
def targetFalsy : Option JNum → Bool
  | none => true
  | some j => j.falsy

/-- Numeric value of the target; only evaluated on the non-falsy path
(`targetBytes = targetSizeKB * 1024`), where the argument is a nonzero
finite value. -/
def jnumRat : Option JNum → ℚ
  | some (JNum.val q) => q
  | _ => 0

/-- The decoded image buffer handed to the target-size search:
`width` is `(await sharp(currentBuffer).metadata()).width`,
`enc w q` is the byte length of `getBuffer(currentBuffer, w, q)`
(`w = none` means no resize), and `presetSize` is the byte length written
by the fixed-preset pipeline of the no-target path. -/
structure ImageModel where
  width : Nat
  enc : Option Nat → Nat → Nat
  presetSize : Nat

/-- Result of one `compressBufferRecursive` call: byte length of the file
written to `outputPath`, and how many encode operations ran. -/
structure CompressOutcome where
  size : Nat
  encodes : Nat
deriving DecidableEq

/-- The quality binary search of `compressBufferRecursive`
(`while (l <= r) { mid = floor((l+r)/2); ... }`): returns the byte length
of the best (largest-quality) buffer whose size fits `targetBytes`,
starting from a fallback buffer `best`, together with the number of
encodes performed.  In the source `l` starts at 1 and only grows, so the
`Nat` subtraction `mid - 1` agrees with JS arithmetic; the invariant
`1 ≤ l` is carried explicitly. -/
def qSearchGo (enc : Option Nat → Nat → Nat) (w : Option Nat)
    (targetBytes : ℚ) (best calls l r : Nat) (hl : 1 ≤ l) : Nat × Nat :=
  if hlr : l ≤ r then
    let mid := (l + r) / 2
    let s := enc w mid
    if (s : ℚ) ≤ targetBytes then
      qSearchGo enc w targetBytes s (calls + 1) (mid + 1) r (by omega)
    else
      qSearchGo enc w targetBytes best (calls + 1) l (mid - 1) hl
  else
    (best, calls)
termination_by r + 1 - l
decreasing_by
  · omega
  · omega

/-- The "Unlimited Resize Loop" of `compressBufferRecursive`
(`while (true)` from line 92): each iteration shrinks the width
(`width = Math.floor(width * 0.70); if (width < 1) width = 1;`), probes
quality 50, on a fit runs the quality binary search and breaks, otherwise
probes quality 1, on a fit breaks with that buffer, and at width 1 breaks
unconditionally with the quality-1 width-1 buffer.  The clamp
`if (width < 1) width = 1` is written `max _ 1`.  Returns the byte
length of `bestBuffer` and the number of encodes performed. -/
def resizeLoop (enc : Option Nat → Nat → Nat) (targetBytes : ℚ)
    (width : Nat) : Nat × Nat :=
  let w := max (7 * width / 10) 1
  let s50 := enc (some w) 50
  if (s50 : ℚ) ≤ targetBytes then
    let res := qSearchGo enc (some w) targetBytes s50 0 1 100 (by omega)
    (res.1, 1 + res.2)
  else
    let s1 := enc (some w) 1
    if (s1 : ℚ) ≤ targetBytes then
      (s1, 2)
    else if w = 1 then
      (enc (some 1) 1, 3)
    else
      let res := resizeLoop enc targetBytes w
      (res.1, 2 + res.2)
termination_by width
decreasing_by omega

/-- Model of `compressBufferRecursive(input, outputPath, format, targetSizeKB)`:
falsy target → single fixed-preset encode; otherwise probe quality 1 at
native resolution, on a fit run the quality binary search, else enter the
resize loop.  Returns the size of the file written and the encode count. -/
def compressBufferRecursive (img : ImageModel) (targetSizeKB : Option JNum) :
    CompressOutcome :=
  if targetFalsy targetSizeKB then
    { size := img.presetSize, encodes := 1 }
  else
    let targetBytes : ℚ := jnumRat targetSizeKB * 1024
    let lowQ := img.enc none 1
    if (lowQ : ℚ) ≤ targetBytes then
      let res := qSearchGo img.enc none targetBytes lowQ 0 1 100 (by omega)
      { size := res.1, encodes := 1 + res.2 }
    else
      let res := resizeLoop img.enc targetBytes img.width
      { size := res.1, encodes := 1 + res.2 }

/-- An input image as seen by `compressImage`: metadata dimensions, the
buffer obtained without the initial resize (`native`) and the buffer
obtained through the bounded `.resize` to fit 4000 by 4000
(`bounded`). -/
structure SharpImage where
  width : Nat
  height : Nat
  native : ImageModel
  bounded : ImageModel

/-- The preprocessing of `compressImage`: the bounded buffer is used when
either metadata dimension exceeds 4000, the native buffer otherwise. -/
def preprocessImage (img : SharpImage) : ImageModel :=
  if 4000 < img.width ∨ 4000 < img.height then img.bounded else img.native

/-- Model of `compressImage(inputPath, outputDir, targetSizeKB)`: preprocess, then
run `compressBufferRecursive` on the resulting buffer. -/
def compressImage (img : SharpImage) (targetSizeKB : Option JNum) :
    CompressOutcome :=
  compressBufferRecursive (preprocessImage img) targetSizeKB

/-- Helper: the quality binary search never returns a buffer larger than
the target when its fallback buffer already fits. -/
theorem qSearchGo_le (enc : Option Nat → Nat → Nat) (w : Option Nat) (T : ℚ) :
    ∀ (n best calls l r : Nat) (hl : 1 ≤ l), r + 1 - l ≤ n →
      (best : ℚ) ≤ T →
      ((qSearchGo enc w T best calls l r hl).1 : ℚ) ≤ T := by
  intro n
  induction n with
  | zero =>
      intro best calls l r hl hn hbest
      rw [qSearchGo]
      simp only [dif_neg (show ¬ l ≤ r by omega)]
      exact hbest
  | succ n ih =>
      intro best calls l r hl hn hbest
      rw [qSearchGo]
      by_cases hlr : l ≤ r
      · simp only [dif_pos hlr]
        by_cases hs : ((enc w ((l + r) / 2) : ℚ)) ≤ T
        · rw [if_pos hs]
          exact ih _ _ _ _ (by omega) (by omega) hs
        · rw [if_neg hs]
          exact ih _ _ _ _ hl (by omega) hbest
      · simp only [dif_neg hlr]
        exact hbest

/-- Helper: when the quality-1 width-1 encoding fits the target, every
exit of the resize loop returns a buffer that fits the target. -/
theorem resizeLoop_le (enc : Option Nat → Nat → Nat) (T : ℚ)
    (h11 : ((enc (some 1) 1 : ℚ)) ≤ T) :
    ∀ width, ((resizeLoop enc T width).1 : ℚ) ≤ T := by
  intro width
  induction width using Nat.strong_induction_on with
  | _ width ih =>
    rw [resizeLoop]
    simp only
    by_cases h50 : ((enc (some (max (7 * width / 10) 1)) 50 : ℚ)) ≤ T
    · rw [if_pos h50]
      exact qSearchGo_le enc _ T 101 _ 0 1 100 (by omega) (by omega) h50
    · rw [if_neg h50]
      by_cases h1 : ((enc (some (max (7 * width / 10) 1)) 1 : ℚ)) ≤ T
      · rw [if_pos h1]
        exact h1
      · rw [if_neg h1]
        by_cases hw1 : max (7 * width / 10) 1 = 1
        · rw [if_pos hw1]
          exact h11
        · rw [if_neg hw1]
          exact ih _ (by omega)

/-- C1: for every image and every strictly positive `targetSizeKB` such
that the quality-1, width-1 encoding of the preprocessing-bounded image
fits within `targetSizeKB*1024` bytes, `compressImage` writes a file of
length at most `targetSizeKB*1024` bytes. -/
theorem compressImage_size_le_target (img : SharpImage) (q : ℚ)
    (hq : 0 < q)
    (hfit : (((preprocessImage img).enc (some 1) 1 : ℚ)) ≤ q * 1024) :
    (((compressImage img (some (JNum.val q))).size : ℚ)) ≤ q * 1024 := by
  have hfalsy : targetFalsy (some (JNum.val q)) = false := by
    simp only [targetFalsy, JNum.falsy, decide_eq_false_iff_not]
    exact ne_of_gt hq
  unfold compressImage compressBufferRecursive
  rw [hfalsy]
  simp only [Bool.false_eq_true, if_false, jnumRat]
  by_cases hlow : (((preprocessImage img).enc none 1 : ℚ)) ≤ q * 1024
  · rw [if_pos hlow]
    exact qSearchGo_le _ _ _ 101 _ 0 1 100 (by omega) (by omega) hlow
  · rw [if_neg hlow]
    exact resizeLoop_le _ _ hfit _

def c1Img : SharpImage :=
  { width := 100, height := 80,
    native := { width := 100, enc := fun _ _ => 10, presetSize := 10 },
    bounded := { width := 100, enc := fun _ _ => 10, presetSize := 10 } }

/-- Witness for C1 at a concrete image and target. -/
theorem compressImage_size_le_target_witness :
    (0 : ℚ) < 50 ∧
    (((preprocessImage c1Img).enc (some 1) 1 : ℚ)) ≤ 50 * 1024 ∧
    (((compressImage c1Img (some (JNum.val 50))).size : ℚ)) ≤ 50 * 1024 :=
  ⟨by norm_num, by norm_num [preprocessImage, c1Img],
    compressImage_size_le_target c1Img 50 (by norm_num)
      (by norm_num [preprocessImage, c1Img])⟩

/-- C8: compressing an image with no target performs a single encode pass
at the fixed per-format preset: exactly one encode operation and no
quality or resolution search. -/
theorem compressImage_no_target_single_encode (img : SharpImage) :
    compressImage img none =
      { size := (preprocessImage img).presetSize, encodes := 1 } := by
  rfl

/-- C10: a `targetSizeKB` that `parseFloat` turned into `0` or `NaN` is
falsy in the `if (!targetSizeKB)` check of the compressor, so the call behaves
exactly like the no-target fixed-preset path: identical result and a
single encode operation. -/
theorem compressImage_falsy_target_is_no_target (img : SharpImage) :
    compressImage img (some JNum.nan) = compressImage img none ∧
    compressImage img (some (JNum.val 0)) = compressImage img none ∧
    (compressImage img (some JNum.nan)).encodes = 1 ∧
    (compressImage img (some (JNum.val 0))).encodes = 1 := by
  refine ⟨rfl, ?_, rfl, ?_⟩ <;>
    simp [compressImage, compressBufferRecursive, targetFalsy, JNum.falsy]

/-- Fuel-indexed form of the quality binary search `while (l <= r)` loop:
one fuel unit per iteration, `none` when the budget is exhausted before
the loop exits. -/
def qSearchFuel (enc : Option Nat → Nat → Nat) (w : Option Nat)
    (targetBytes : ℚ) : Nat → Nat → Nat → Nat → Nat → Option (Nat × Nat)
  | 0, _, _, _, _ => none
  | fuel + 1, best, calls, l, r =>
      if l ≤ r then
        let mid := (l + r) / 2
        let s := enc w mid
        if (s : ℚ) ≤ targetBytes then
          qSearchFuel enc w targetBytes fuel s (calls + 1) (mid + 1) r
        else
          qSearchFuel enc w targetBytes fuel best (calls + 1) l (mid - 1)
      else
        some (best, calls)

/-- Fuel-indexed form of the `while (true)` resize loop: one fuel unit
per iteration, `none` when the budget is exhausted before a `break`. -/
def resizeLoopFuel (enc : Option Nat → Nat → Nat) (targetBytes : ℚ) :
    Nat → Nat → Option (Nat × Nat)
  | 0, _ => none
  | fuel + 1, width =>
      let w := max (7 * width / 10) 1
      let s50 := enc (some w) 50
      if (s50 : ℚ) ≤ targetBytes then
        let res := qSearchGo enc (some w) targetBytes s50 0 1 100 (by omega)
        some (res.1, 1 + res.2)
      else
        let s1 := enc (some w) 1
        if (s1 : ℚ) ≤ targetBytes then
          some (s1, 2)
        else if w = 1 then
          some (enc (some 1) 1, 3)
        else
          match resizeLoopFuel enc targetBytes fuel w with
          | none => none
          | some res => some (res.1, 2 + res.2)

/-- Helper: `r + 1 - l` iterations of fuel let the fuel-indexed binary
search exit the loop with the same result as the total function. -/
theorem qSearchFuel_eq (enc : Option Nat → Nat → Nat) (w : Option Nat)
    (T : ℚ) :
    ∀ (fuel best calls l r : Nat) (hl : 1 ≤ l), r + 1 - l < fuel →
      qSearchFuel enc w T fuel best calls l r =
        some (qSearchGo enc w T best calls l r hl) := by
  intro fuel
  induction fuel with
  | zero => intro best calls l r hl hn; omega
  | succ fuel ih =>
      intro best calls l r hl hn
      rw [qSearchFuel, qSearchGo]
      by_cases hlr : l ≤ r
      · simp only [if_pos hlr, dif_pos hlr]
        by_cases hs : ((enc w ((l + r) / 2) : ℚ)) ≤ T
        · rw [if_pos hs, if_pos hs]
          exact ih _ _ _ _ (by omega) (by omega)
        · rw [if_neg hs, if_neg hs]
          exact ih _ _ _ _ hl (by omega)
      · simp only [if_neg hlr, dif_neg hlr]

/-- Helper: `width` iterations of fuel let the fuel-indexed resize loop
reach a `break` with the same result as the total function. -/
theorem resizeLoopFuel_eq (enc : Option Nat → Nat → Nat) (T : ℚ) :
    ∀ (fuel width : Nat), width < fuel →
      resizeLoopFuel enc T fuel width = some (resizeLoop enc T width) := by
  intro fuel
  induction fuel with
  | zero => intro width hn; omega
  | succ fuel ih =>
      intro width hn
      rw [resizeLoopFuel, resizeLoop]
      simp only
      by_cases h50 : ((enc (some (max (7 * width / 10) 1)) 50 : ℚ)) ≤ T
      · rw [if_pos h50, if_pos h50]
      · rw [if_neg h50, if_neg h50]
        by_cases h1 : ((enc (some (max (7 * width / 10) 1)) 1 : ℚ)) ≤ T
        · rw [if_pos h1, if_pos h1]
        · rw [if_neg h1, if_neg h1]
          by_cases hw1 : max (7 * width / 10) 1 = 1
          · rw [if_pos hw1, if_pos hw1]
          · rw [if_neg hw1, if_neg hw1]
            rw [ih _ (by omega)]

/-- C5: the target-path search terminates.  The quality binary search
over `[1,100]` exits its `while (l <= r)` loop within 101 iterations, and
the `while (true)` resolution-reduction loop reaches a `break` within
`width + 1` iterations for any starting width, in both cases computing
what the total functions compute. -/
theorem compressSearch_terminates (enc : Option Nat → Nat → Nat)
    (w : Option Nat) (T : ℚ) (best calls width : Nat) :
    qSearchFuel enc w T 101 best calls 1 100 =
      some (qSearchGo enc w T best calls 1 100 (by omega)) ∧
    resizeLoopFuel enc T (width + 1) width =
      some (resizeLoop enc T width) :=
  ⟨qSearchFuel_eq enc w T 101 best calls 1 100 (by omega) (by omega),
   resizeLoopFuel_eq enc T (width + 1) width (by omega)⟩

/-- Outcome of one Ghostscript invocation (`runGs`): the promise rejected
(non-zero exit or spawn error, leaving no output file in the model), or
the process exited 0 — having written `outputPath` with the given byte
size, or having written nothing (the source re-checks `existsSync`). -/
inductive GsOutcome where
  | fail : GsOutcome
  | wrote : Nat → GsOutcome
  | wroteNothing : GsOutcome
deriving DecidableEq

/-- Result of one `compressPdf` call: the byte size of the file at
`outputPath` when the call returns (`none`: no file exists there), the
number of `runGs` rendering invocations, and whether the returned file is
the unmodified copy of the source. -/
structure PdfResult where
  outSize : Option Nat
  gsCalls : Nat
  copiedSource : Bool
deriving DecidableEq

/-- The strategy ladder loop of `compressPdf` (lines 190–217): for each
strategy index, first unlink any existing output, run Ghostscript, and if
a file exists and fits the target return it immediately.  State: indices
left to try, current file at `outputPath`, `runGs` calls so far.  Result:
file at `outputPath`, call count, and whether the loop returned early. -/
def pdfLoop (gsRun : Nat → GsOutcome) (targetBytes : ℚ) :
    List Nat → Option Nat → Nat → Option Nat × Nat × Bool
  | [], file, calls => (file, calls, false)
  | i :: rest, _, calls =>
      match gsRun i with
      | .fail => pdfLoop gsRun targetBytes rest none (calls + 1)
      | .wroteNothing => pdfLoop gsRun targetBytes rest none (calls + 1)
      | .wrote s =>
          if (s : ℚ) ≤ targetBytes then
            (some s, calls + 1, true)
          else
            pdfLoop gsRun targetBytes rest (some s) (calls + 1)

/-- Model of `compressPdf(inputPath, outputDir, targetSizeKB)`: if Ghostscript is
unavailable, copy the source; with a falsy target run one fixed-preset
render (copying the source if it fails); otherwise run the three-strategy
ladder `[ebook, screen, low-res]` and, if the ladder exits without an
early return and no file is left at `outputPath`, copy the source. -/
def compressPdf (gsAvailable : Bool) (gsDefault : GsOutcome)
    (gsRun : Nat → GsOutcome) (targetSizeKB : Option JNum)
    (srcSize : Nat) : PdfResult :=
  if gsAvailable = false then
    { outSize := some srcSize, gsCalls := 0, copiedSource := true }
  else if targetFalsy targetSizeKB then
    match gsDefault with
    | .fail => { outSize := some srcSize, gsCalls := 1, copiedSource := true }
    | .wrote s => { outSize := some s, gsCalls := 1, copiedSource := false }
    | .wroteNothing => { outSize := none, gsCalls := 1, copiedSource := false }
  else
    let targetBytes : ℚ := jnumRat targetSizeKB * 1024
    match pdfLoop gsRun targetBytes [0, 1, 2] none 0 with
    | (file, calls, true) =>
        { outSize := file, gsCalls := calls, copiedSource := false }
    | (some s, calls, false) =>
        { outSize := some s, gsCalls := calls, copiedSource := false }
    | (none, calls, false) =>
        { outSize := some srcSize, gsCalls := calls, copiedSource := true }

/-- C6: with a (nonzero finite) target, the preset ladder is tried in its
fixed order and the first strategy whose output fits the target is
returned immediately: if the output of strategy 0 fits, exactly one
rendering invocation occurs; if the output of strategy 0 does not fit
and the output of strategy 1 does, exactly two occur and the output of
strategy 1 is returned. -/
theorem compressPdf_ladder_short_circuit (gsDefault : GsOutcome)
    (gsRun : Nat → GsOutcome) (q : ℚ) (src s0 : Nat)
    (hq : q ≠ 0) (h0 : gsRun 0 = .wrote s0) :
    (((s0 : ℚ)) ≤ q * 1024 →
      compressPdf true gsDefault gsRun (some (JNum.val q)) src =
        { outSize := some s0, gsCalls := 1, copiedSource := false }) ∧
    (¬ ((s0 : ℚ)) ≤ q * 1024 → ∀ s1 : Nat, gsRun 1 = .wrote s1 →
      ((s1 : ℚ)) ≤ q * 1024 →
      compressPdf true gsDefault gsRun (some (JNum.val q)) src =
        { outSize := some s1, gsCalls := 2, copiedSource := false }) := by
  have hfalsy : targetFalsy (some (JNum.val q)) = false := by
    simp only [targetFalsy, JNum.falsy, decide_eq_false_iff_not]
    exact hq
  constructor
  · intro hfit
    simp [compressPdf, hfalsy, pdfLoop, h0, jnumRat, hfit]
  · intro hnofit s1 h1 hfit1
    simp [compressPdf, hfalsy, pdfLoop, h0, h1, jnumRat, hnofit, hfit1]

def c6GsRun : Nat → GsOutcome := fun i =>
  if i = 0 then .wrote 1000 else .wrote 5000

/-- Witness for C6 at a concrete ladder oracle and target. -/
theorem compressPdf_ladder_short_circuit_witness :
    (50 : ℚ) ≠ 0 ∧ c6GsRun 0 = .wrote 1000 ∧ ((1000 : ℚ)) ≤ 50 * 1024 ∧
    compressPdf true .fail c6GsRun (some (JNum.val 50)) 777 =
      { outSize := some 1000, gsCalls := 1, copiedSource := false } :=
  ⟨by norm_num, rfl, by norm_num,
    (compressPdf_ladder_short_circuit .fail c6GsRun 50 777 1000
      (by norm_num) rfl).1 (by norm_num)⟩

/-- The file left at `outputPath` by one ladder attempt whose output did
not fit (the run of the attempt started by unlinking any previous
output). -/
def gsFileAfter : GsOutcome → Option Nat
  | .wrote s => some s
  | _ => none

/-- Helper: a ladder step whose output does not fit the target leaves
exactly its own output (or nothing) at `outputPath` and continues. -/
theorem pdfLoop_cons_nofit (gsRun : Nat → GsOutcome) (tb : ℚ)
    (i : Nat) (rest : List Nat) (file : Option Nat) (calls : Nat)
    (h : ∀ s : Nat, gsRun i = .wrote s → ¬ ((s : ℚ)) ≤ tb) :
    pdfLoop gsRun tb (i :: rest) file calls =
      pdfLoop gsRun tb rest (gsFileAfter (gsRun i)) (calls + 1) := by
  rcases hgi : gsRun i with _ | s | _
  · simp [pdfLoop, hgi, gsFileAfter]
  · simp only [pdfLoop, hgi, gsFileAfter]
    rw [if_neg (h s hgi)]
  · simp [pdfLoop, hgi, gsFileAfter]

def c7GsRun : Nat → GsOutcome := fun i =>
  if i = 0 then .wrote 2000 else if i = 1 then .wrote 1500 else .fail

/-- Counterexample to C7 as stated: target 1 KB, strategies produce 2000
bytes, then 1500 bytes, then fail; the last successfully produced output
is the 1500-byte file of strategy 1, but it was unlinked at the start of
the attempt of strategy 2, so the call returns an unmodified 999-byte copy of
the source instead of that best-effort output. -/
theorem compressPdf_best_effort_counterexample :
    compressPdf true .fail c7GsRun (some (JNum.val 1)) 999 =
      { outSize := some 999, gsCalls := 3, copiedSource := true } ∧
    (compressPdf true .fail c7GsRun (some (JNum.val 1)) 999).outSize ≠
      some 1500 := by
  constructor <;>
    norm_num [compressPdf, targetFalsy, JNum.falsy, jnumRat, pdfLoop, c7GsRun]

/-- C7 (amended): with a (nonzero finite) target, if every strategy is
attempted and none meets the target, the call returns the output of the
LAST attempted strategy when that strategy produced a file (each attempt
first unlinks the output of the previous attempt); if the last strategy
left
no file — in particular when no strategy produced a file at all — an
unmodified copy of the source is returned. -/
theorem compressPdf_ladder_exhausted (gsDefault : GsOutcome)
    (gsRun : Nat → GsOutcome) (q : ℚ) (src : Nat) (hq : q ≠ 0)
    (hnofit : ∀ i s : Nat, gsRun i = .wrote s → ¬ ((s : ℚ)) ≤ q * 1024) :
    (∀ s2 : Nat, gsRun 2 = .wrote s2 →
      compressPdf true gsDefault gsRun (some (JNum.val q)) src =
        { outSize := some s2, gsCalls := 3, copiedSource := false }) ∧
    ((gsRun 2 = .fail ∨ gsRun 2 = .wroteNothing) →
      compressPdf true gsDefault gsRun (some (JNum.val q)) src =
        { outSize := some src, gsCalls := 3, copiedSource := true }) := by
  have hfalsy : targetFalsy (some (JNum.val q)) = false := by
    simp only [targetFalsy, JNum.falsy, decide_eq_false_iff_not]
    exact hq
  have hloop : pdfLoop gsRun (q * 1024) [0, 1, 2] none 0 =
      (gsFileAfter (gsRun 2), 3, false) := by
    rw [pdfLoop_cons_nofit _ _ _ _ _ _ (hnofit 0),
        pdfLoop_cons_nofit _ _ _ _ _ _ (hnofit 1),
        pdfLoop_cons_nofit _ _ _ _ _ _ (hnofit 2)]
    rfl
  constructor
  · intro s2 h2
    simp [compressPdf, hfalsy, jnumRat, hloop, h2, gsFileAfter]
  · intro h2
    rcases h2 with h2 | h2 <;>
      simp [compressPdf, hfalsy, jnumRat, hloop, h2, gsFileAfter]

/-- Witness for the amended C7 at a concrete ladder oracle: two
non-fitting outputs, then a failing last strategy, yields the source
copy. -/
theorem compressPdf_ladder_exhausted_witness :
    (1 : ℚ) ≠ 0 ∧
    compressPdf true .fail c7GsRun (some (JNum.val 1)) 999 =
      { outSize := some 999, gsCalls := 3, copiedSource := true } :=
  ⟨one_ne_zero,
    (compressPdf_ladder_exhausted .fail c7GsRun 1 999 one_ne_zero
      (by
        intro i s h
        simp only [c7GsRun] at h
        split_ifs at h
        · injection h with h2
          subst h2
          norm_num
        · injection h with h2
          subst h2
          norm_num)).2 (Or.inl rfl)⟩

/-- The filesystem namespace of one staging directory: which file names
exist.
The handlers in `src/server.js` and `src/cleanup.js` only test existence
and unlink, so presence is the whole observable state. -/
def FS : Type := String → Bool

/-- The only `fs.unlink` error arising in this model: the path does not
exist.  (Other I/O errors are outside the filesystem model; `deleteFile`
logs them identically without propagating.) -/
inductive UnlinkErr where
  | enoent : UnlinkErr
deriving DecidableEq

/-- Model of `fs.unlink(path, cb)`: removes an existing file, or reports `ENOENT`
to the callback when the path is absent. -/
def fsUnlink (fs : FS) (p : String) : FS × Option UnlinkErr :=
  if fs p then (fun q => if q = p then false else fs q, none)
  else (fs, some .enoent)

/-- Model of `deleteFile(filePath)` from `src/cleanup.js`: a falsy path (`null` or
the empty string) returns at once; otherwise `fs.unlink` runs and its
error, if any, is only logged in the callback (`ENOENT` silently, others
via `console.error`).  The `Bool` component records whether an error
propagated to the caller — no path of the source raises one. -/
def deleteFile (fs : FS) (filePath : Option String) : FS × Bool :=
  match filePath with
  | none => (fs, false)
  | some p =>
      if p.isEmpty then (fs, false)
      else ((fsUnlink fs p).1, false)

/-- Helper: after `deleteFile` on a nonempty path, the path is absent. -/
theorem deleteFile_clears (fs : FS) (p : String) (hp : p.isEmpty = false) :
    (deleteFile fs (some p)).1 p = false := by
  simp only [deleteFile, hp, Bool.false_eq_true, if_false, fsUnlink]
  by_cases hf : fs p = true <;> simp [hf]

/-- Helper: deleting an absent path leaves the directory unchanged. -/
theorem deleteFile_absent (fs : FS) (p : String) (h : fs p = false) :
    (deleteFile fs (some p)).1 = fs := by
  simp only [deleteFile]
  split
  · rfl
  · simp [fsUnlink, h]

/-- Helper: no `deleteFile` call propagates an error to its caller. -/
theorem deleteFile_no_raise (fs : FS) (p : String) :
    (deleteFile fs (some p)).2 = false := by
  simp only [deleteFile]
  split <;> rfl

/-- C4: `deleteFile` is idempotent and never raises: a falsy path is a
no-op, deleting an already-absent path leaves the filesystem unchanged,
a second delete of the same path is a no-op, and no call propagates an
error upward. -/
theorem deleteFile_idempotent (fs : FS) (p : String) :
    (deleteFile fs none).1 = fs ∧
    (deleteFile fs none).2 = false ∧
    (deleteFile fs (some p)).2 = false ∧
    (fs p = false → (deleteFile fs (some p)).1 = fs) ∧
    (deleteFile (deleteFile fs (some p)).1 (some p)).1 =
      (deleteFile fs (some p)).1 ∧
    (deleteFile (deleteFile fs (some p)).1 (some p)).2 = false := by
  refine ⟨rfl, rfl, deleteFile_no_raise fs p, deleteFile_absent fs p, ?_,
    deleteFile_no_raise _ p⟩
  by_cases hp : p.isEmpty = true
  · simp [deleteFile, hp]
  · exact deleteFile_absent _ p (deleteFile_clears fs p (by simpa using hp))

def c4Fs : FS := fun _ => false

/-- Witness for C4 at a concrete (empty) directory and path. -/
theorem deleteFile_idempotent_witness :
    c4Fs "a.png" = false ∧ (deleteFile c4Fs (some "a.png")).1 = c4Fs :=
  ⟨rfl, (deleteFile_idempotent c4Fs "a.png").2.2.2.1 rfl⟩

/-- The two staging directories of `src/server.js` (`temp/uploads` and
`temp/processed`); files are keyed by their generated basename, which the
upload handler reuses as the output artifact id. -/
structure ServerState where
  uploads : FS
  processed : FS

/-- MIME classification performed by the upload handler:
`application/pdf`, `image/*`, or anything else. -/
inductive Mime where
  | pdf : Mime
  | image : Mime
  | other : Mime

/-- Outcome of the awaited compression call: it resolved after writing
the output file, or it rejected (codec/engine error) and the `catch`
block of the handler runs. -/
inductive CompressRun where
  | ok : CompressRun
  | err : CompressRun

/-- A file write: `fun q => ...` registers `p` as present. -/
def fsWrite (fs : FS) (p : String) : FS :=
  fun q => if q = p then true else fs q

/-- The POST /upload handler (src/server.js lines 53-91), given a stored
upload `fileId`, its MIME class, the parsed target, and the compression
outcome: unsupported MIME deletes the upload and answers 400 without
invoking a compressor; a successful compression writes the output file,
deletes the upload, and answers 200; a rejected compression hits `catch`,
which deletes the upload and answers 500.  The fire-and-forget
`fs.unlink` inside `deleteFile` is modelled as taking effect at the call.
Result: new state and HTTP status. -/
def uploadHandler (st : ServerState) (fileId : String) (mime : Mime)
    (targetSizeKB : Option JNum) (run : CompressRun) : ServerState × Nat :=
  match mime with
  | .other =>
      ({ st with uploads := (deleteFile st.uploads (some fileId)).1 }, 400)
  | _ =>
      match run with
      | .ok =>
          let st1 :=
            { st with processed := fsWrite st.processed fileId }
          ({ st1 with uploads := (deleteFile st1.uploads (some fileId)).1 },
            200)
      | .err =>
          ({ st with uploads := (deleteFile st.uploads (some fileId)).1 },
            500)

/-- C2: after any upload-endpoint compression call — success, compressor
failure, or unsupported MIME type — the upload artifact is absent; and in
the unsupported-MIME case the handler answers 400 with the output
directory untouched (no output artifact was created).  Upload ids are
the nonempty `uuid + extension` names multer generates. -/
theorem uploadHandler_upload_absent (st : ServerState) (fileId : String)
    (hne : fileId.isEmpty = false) :
    (∀ (mime : Mime) (t : Option JNum) (run : CompressRun),
      (uploadHandler st fileId mime t run).1.uploads fileId = false) ∧
    (∀ (t : Option JNum) (run : CompressRun),
      (uploadHandler st fileId .other t run).1.processed = st.processed) ∧
    (∀ (t : Option JNum) (run : CompressRun),
      (uploadHandler st fileId .other t run).2 = 400) := by
  refine ⟨?_, fun _ _ => rfl, fun _ _ => rfl⟩
  intro mime t run
  cases mime <;> cases run <;>
    exact deleteFile_clears _ fileId hne

def c2St : ServerState :=
  { uploads := fun q => q == "u1.png", processed := fun _ => false }

/-- Witness for C2 at a concrete state and upload id. -/
theorem uploadHandler_upload_absent_witness :
    ("u1.png" : String).isEmpty = false ∧
    (uploadHandler c2St "u1.png" .image none .ok).1.uploads "u1.png" =
      false :=
  ⟨rfl, (uploadHandler_upload_absent c2St "u1.png" rfl).1 .image none .ok⟩

/-- The GET /download/:id handler (src/server.js lines 94-109): absent
file
→ 404; otherwise `res.download` streams it and, only when the send
callback reports no error (`sendOk`), `deleteFile` removes it.  Result:
new state and HTTP status. -/
def downloadHandler (st : ServerState) (id : String) (sendOk : Bool) :
    ServerState × Nat :=
  if st.processed id = false then
    (st, 404)
  else if sendOk then
    ({ st with processed := (deleteFile st.processed (some id)).1 }, 200)
  else
    (st, 200)

/-- C3: a delivery read of an absent output id reports 404 and changes
nothing; and after one successful delivery read of a present id, a second
delivery read of the same id reports 404.  Output ids are the nonempty
file basenames produced by the upload handler. -/
theorem downloadHandler_single_delivery (st : ServerState) (id : String)
    (hne : id.isEmpty = false) :
    (st.processed id = false → ∀ sendOk : Bool,
      downloadHandler st id sendOk = (st, 404)) ∧
    (st.processed id = true → ∀ sendOk : Bool,
      downloadHandler (downloadHandler st id true).1 id sendOk =
        ((downloadHandler st id true).1, 404)) := by
  have key : ∀ (s : ServerState) (sendOk : Bool), s.processed id = false →
      downloadHandler s id sendOk = (s, 404) := by
    intro s sendOk h
    simp only [downloadHandler, h, if_pos]
  refine ⟨fun habs sendOk => key st sendOk habs, ?_⟩
  intro hpres sendOk
  have h1 : (downloadHandler st id true).1.processed id = false := by
    simp only [downloadHandler, hpres, Bool.true_eq_false, if_false,
      if_pos]
    exact deleteFile_clears _ id hne
  exact key _ sendOk h1

def c3St : ServerState :=
  { uploads := fun _ => false, processed := fun q => q == "o1.png" }

/-- Witness for C3 at a concrete state: one successful delivery of a
present id, then a second read of the same id answers 404. -/
theorem downloadHandler_single_delivery_witness :
    ("o1.png" : String).isEmpty = false ∧
    c3St.processed "o1.png" = true ∧
    downloadHandler (downloadHandler c3St "o1.png" true).1 "o1.png" true =
      ((downloadHandler c3St "o1.png" true).1, 404) :=
  ⟨rfl, rfl,
    (downloadHandler_single_delivery c3St "o1.png" rfl).2 rfl true⟩

/-- A staging directory together with per-file modification timestamps
(`stats.mtimeMs`), as inspected by the auto-cleanup interval:
`some m` means the file exists with mtime `m`. -/
def TFS : Type := String → Option Int

/-- The two timed staging directories swept by the cleanup interval. -/
structure TimedState where
  uploads : TFS
  processed : TFS

/-- The fate of one file in a cleanup pass: `deleteFile` runs exactly when
`now - stats.mtimeMs > maxAge` with `maxAge = 2 * 60 * 1000` ms. -/
def reapOne (now : Int) (entry : Option Int) : Option Int :=
  match entry with
  | none => none
  | some m => if 2 * 60 * 1000 < now - m then none else some m

/-- One cycle of the `setInterval` auto-cleanup (src/server.js lines
157–190): enumerate `PROCESSED_DIR` and `UPLOAD_DIR`, stat each file,
and delete those strictly older than the 2-minute TTL. -/
def reaperCycle (st : TimedState) (now : Int) : TimedState :=
  { uploads := fun p => reapOne now (st.uploads p),
    processed := fun p => reapOne now (st.processed p) }

/-- C9: one reaper cycle deletes every artifact, in either directory,
whose age `now - mtime` exceeds the 120-second TTL — even if it was never
delivered — and leaves every artifact at or under the TTL in place. -/
theorem reaperCycle_expires (st : TimedState) (now m : Int) (p : String) :
    (st.uploads p = some m → 120000 < now - m →
      (reaperCycle st now).uploads p = none) ∧
    (st.uploads p = some m → now - m ≤ 120000 →
      (reaperCycle st now).uploads p = some m) ∧
    (st.processed p = some m → 120000 < now - m →
      (reaperCycle st now).processed p = none) ∧
    (st.processed p = some m → now - m ≤ 120000 →
      (reaperCycle st now).processed p = some m) := by
  refine ⟨fun h hold => ?_, fun h hyoung => ?_, fun h hold => ?_,
    fun h hyoung => ?_⟩ <;>
    simp only [reaperCycle, reapOne, h] <;>
    norm_num <;>
    omega

def c9St : TimedState :=
  { uploads := fun _ => none,
    processed := fun p => if p = "old.png" then some 0 else none }

/-- Witness for C9: a file last modified at time 0 is reaped at time
200000 ms (age > TTL) and kept at time 100000 ms (age ≤ TTL). -/
theorem reaperCycle_expires_witness :
    c9St.processed "old.png" = some 0 ∧
    (reaperCycle c9St 200000).processed "old.png" = none ∧
    (reaperCycle c9St 100000).processed "old.png" = some 0 :=
  ⟨rfl,
    (reaperCycle_expires c9St 200000 0 "old.png").2.2.1 rfl (by norm_num),
    (reaperCycle_expires c9St 100000 0 "old.png").2.2.2 rfl (by norm_num)⟩
